import Mathlib

/-!
Shallow embedding of `pkg/uploadserver/uploadserver.go` from the
containerized-data-importer repository: the upload admission state machine,
the synchronous and asynchronous upload handlers, the tar-to-block-device
extractor, the content decoder and the multipart body extraction, together
with theorems checking the natural-language specification against them.
-/

namespace UploadServer

/-! HTTP status codes used by the handlers (net/http constants). -/

def statusOK : Nat := 200
def statusBadRequest : Nat := 400
def statusUnauthorized : Nat := 401
def statusNotFound : Nat := 404
def statusConflict : Nat := 409
def statusInternalServerError : Nat := 500
def statusServiceUnavailable : Nat := 503

/-- HTTP request methods the handlers distinguish: POST, HEAD, anything else. -/
inductive Method
  | post
  | head
  | other
deriving DecidableEq

/-- Errors returned by the data processor. `validationSize` models
`importer.ValidationSizeError` (matched via `errors.As` in the async handler);
`other` models every other error value. -/
inductive ProcError
  | validationSize
  | other (msg : String)
deriving DecidableEq

/-- Models `errors.As(err, &importer.ValidationSizeError{})`. -/
def isValidationSizeError : ProcError → Bool
  | .validationSize => true
  | .other _ => false

/-- Models `cdiv1.DataVolumeContentType` as used by `processUpload`
(`DataVolumeKubeVirt` from `uploadHandler`, `DataVolumeArchive` from
`uploadArchiveHandler`). -/
inductive DataVolumeContentType
  | kubeVirt
  | archive
deriving DecidableEq

/-- The mutable session fields of `uploadServerApp` guarded by `app.mutex`,
plus the two signalling channels: `doneChanClosed` records whether
`close(app.doneChan)` has run, and `errChanSent` records the errors sent on
`app.errChan` in order. -/
structure AppState where
  uploading : Bool
  processing : Bool
  done : Bool
  preallocationApplied : Bool
  doneChanClosed : Bool
  errChanSent : List ProcError
deriving DecidableEq

/-- The session state built by `NewUploadServer`: all flags false, both
channels fresh. -/
def initState : AppState :=
  { uploading := false
    processing := false
    done := false
    preallocationApplied := false
    doneChanClosed := false
    errChanSent := [] }

/-- Result of `validateShouldHandleRequest`: whether the request was admitted,
the status code written on rejection (none on admission), and the session
state after the call. -/
structure ValidateResult where
  admitted : Bool
  status : Option Nat
  state : AppState
deriving DecidableEq

/-- The lock-guarded phase section of `validateShouldHandleRequest`
(uploadserver.go lines 304-321): reject 503 while uploading or processing,
reject 409 once done, otherwise set `uploading` and admit. -/
def validatePhase (s : AppState) : ValidateResult :=
  if s.uploading || s.processing then
    { admitted := false, status := some statusServiceUnavailable, state := s }
  else if s.done then
    { admitted := false, status := some statusConflict, state := s }
  else
    { admitted := true, status := none, state := { s with uploading := true } }

/-- Models `validateShouldHandleRequest` (uploadserver.go lines 280-322).
`peerCerts` is `none` for a plain HTTP connection (`r.TLS == nil`) and
`some cns` for a TLS connection presenting certificates whose subject common
names are `cns`. -/
def validateShouldHandleRequest (clientName : String) (method : Method)
    (peerCerts : Option (List String)) (s : AppState) : ValidateResult :=
  if method ≠ Method.post then
    { admitted := false, status := some statusNotFound, state := s }
  else
    match peerCerts with
    | some cns =>
      if cns.any (fun cn => cn == clientName) then
        validatePhase s
      else
        { admitted := false, status := some statusUnauthorized, state := s }
    | none => validatePhase s

/-- Result of running one handler invocation: the explicit `WriteHeader`
status codes in the order written, the session state afterwards, and the
stream argument the upload processor was invoked with (`none` in the outer
`Option` when the processor was never invoked; the inner `Option` is `none`
when the processor received a nil read-closer). -/
structure HandlerResult where
  statuses : List Nat
  state : AppState
  procCalledWith : Option (Option (List Nat))
deriving DecidableEq

/-- Models `formReadCloser` (uploadserver.go lines 95-117): scan the multipart
parts in order, return the first part whose form field name is `"file"`, and
fail (the `io.EOF` from `NextPart`) when no part matches. A part is a pair of
its form field name and its content bytes. -/
def formReadCloser (parts : List (String × List Nat)) : Except Unit (List Nat) :=
  match parts.find? (fun p => p.1 == "file") with
  | some p => Except.ok p.2
  | none => Except.error ()

/-- Models `processUpload` (uploadserver.go lines 389-425), the body shared by
`uploadHandler` and `uploadArchiveHandler`. `uploadProcessorFunc` abstracts
the package-level processor variable (returning the preallocation outcome and
an optional error); `body` is the outcome of the `imageReadCloser` extraction,
`cdiContentType` the value of the upload content-type header. On extraction
failure the code writes 400 but does not return: the processor still runs on
a nil stream. -/
def processUpload (clientName : String)
    (uploadProcessorFunc :
      Option (List Nat) → String → DataVolumeContentType → Bool × Option ProcError)
    (dvContentType : DataVolumeContentType) (method : Method)
    (peerCerts : Option (List String)) (cdiContentType : String)
    (body : Except Unit (List Nat)) (s : AppState) : HandlerResult :=
  let v := validateShouldHandleRequest clientName method peerCerts s
  if v.admitted = false then
    { statuses := v.status.toList, state := v.state, procCalledWith := none }
  else
    let extract : Option (List Nat) × List Nat :=
      match body with
      | Except.ok b => (some b, [])
      | Except.error _ => (none, [statusBadRequest])
    let pr := uploadProcessorFunc extract.1 cdiContentType dvContentType
    let s1 := { v.state with preallocationApplied := pr.1 }
    match pr.2 with
    | some _ =>
      { statuses := extract.2 ++ [statusInternalServerError]
        state := { s1 with uploading := false }
        procCalledWith := some extract.1 }
    | none =>
      { statuses := extract.2
        state := { s1 with uploading := false, done := true, doneChanClosed := true }
        procCalledWith := some extract.1 }

/-- The asynchronous processor returned by `uploadProcessorFuncAsync` on
success, reduced to what the background goroutine observes of it: the outcome
of `ProcessDataResume` and the `PreallocationApplied` query. -/
structure AsyncProcessor where
  resumeError : Option ProcError
  preallocationApplied : Bool
deriving DecidableEq

/-- Models the handler closure built by `uploadHandlerAsync` (uploadserver.go
lines 324-387) up to spawning the background goroutine: HEAD short-circuits
to 200, then admission, body extraction (400 on failure, without returning),
then `uploadProcessorFuncAsync`; a setup error maps to 400 for a size
validation error and 500 otherwise, clearing `uploading`; on success the
state moves from uploading to processing (the goroutine itself is
`asyncResumeStep`). -/
def uploadHandlerAsync (clientName : String)
    (uploadProcessorFuncAsync :
      Option (List Nat) → String → Except ProcError AsyncProcessor)
    (method : Method) (peerCerts : Option (List String)) (cdiContentType : String)
    (body : Except Unit (List Nat)) (s : AppState) : HandlerResult :=
  if method = Method.head then
    { statuses := [statusOK], state := s, procCalledWith := none }
  else
    let v := validateShouldHandleRequest clientName method peerCerts s
    if v.admitted = false then
      { statuses := v.status.toList, state := v.state, procCalledWith := none }
    else
      let extract : Option (List Nat) × List Nat :=
        match body with
        | Except.ok b => (some b, [])
        | Except.error _ => (none, [statusBadRequest])
      match uploadProcessorFuncAsync extract.1 cdiContentType with
      | Except.error e =>
        { statuses := extract.2 ++
            [if isValidationSizeError e then statusBadRequest
             else statusInternalServerError]
          state := { v.state with uploading := false }
          procCalledWith := some extract.1 }
      | Except.ok _ =>
        { statuses := extract.2
          state := { v.state with uploading := false, processing := true }
          procCalledWith := some extract.1 }

/-- Models the background goroutine spawned by `uploadHandlerAsync`
(uploadserver.go lines 371-383): run `ProcessDataResume`; on error send it on
`errChan` — and then, with no early return, fall through to the same
completion code as success: clear `processing`, set `done`, record
`PreallocationApplied`, and let the deferred `close(app.doneChan)` run. -/
def asyncResumeStep (processor : AsyncProcessor) (s : AppState) : AppState :=
  let s1 :=
    match processor.resumeError with
    | some e => { s with errChanSent := s.errChanSent ++ [e] }
    | none => s
  { s1 with
    processing := false
    done := true
    preallocationApplied := processor.preallocationApplied
    doneChanClosed := true }

/-! Archive extractor (`untarToBlockdev`) and content decoder. -/

/-- Tests whether `sub` occurs at the start of `s` (on character lists). -/
def listStartsWith : List Char → List Char → Bool
  | _, [] => true
  | [], _ :: _ => false
  | a :: s, b :: t => a == b && listStartsWith s t

/-- Tests whether `sub` occurs contiguously anywhere in `s`. -/
def containsSubList : List Char → List Char → Bool
  | [], sub => sub.isEmpty
  | a :: s, sub => listStartsWith (a :: s) sub || containsSubList s sub

/-- Models Go `strings.Contains(s, sub)`. -/
def goStringsContains (s sub : String) : Bool :=
  containsSubList s.data sub.data

/-- Modelled from the spec: `common.DiskImageName`, the disk-image filename
marker looked for in tar entry names; the `common` package is outside the
given sources, and the spec's archive-extraction example uses "disk.img". -/
def diskImageName : String := "disk.img"

/-- Go `tar.TypeReg`. -/
def tarTypeReg : Char := '0'

/-- Go `tar.TypeGNUSparse`. -/
def tarTypeGNUSparse : Char := 'S'

/-- The typeflags `untarToBlockdev` copies: regular file or GNU sparse file. -/
def isCopyType (c : Char) : Bool :=
  c == tarTypeReg || c == tarTypeGNUSparse

/-- A parsed tar stream entry: header name, header typeflag, declared header
size, and the entry's content bytes as delivered by the tar reader. -/
structure TarEntry where
  name : String
  typeflag : Char
  size : Nat
  content : List Nat
deriving DecidableEq

/-- Models `untarToBlockdev` (uploadserver.go lines 483-514) on a parsed tar
stream: skip entries whose name does not contain `diskImageName`; skip
matching entries whose typeflag is neither regular nor GNU-sparse (the switch
has no default case); for the first matching regular/sparse entry, copy
exactly `size` bytes to the destination via `io.CopyN` and return — `none`
models the `CopyN` error when the entry holds fewer than `size` bytes; end of
stream with no match returns success with nothing written. The result is the
byte sequence appended to the destination device. -/
def untarToBlockdev : List TarEntry → Option (List Nat)
  | [] => some []
  | e :: rest =>
    if goStringsContains e.name diskImageName then
      if isCopyType e.typeflag then
        if e.size ≤ e.content.length then some (e.content.take e.size) else none
      else untarToBlockdev rest
    else untarToBlockdev rest

/-- Modelled from the spec: `common.BlockdeviceClone`, the source
content-type token denoting a block-device clone with block-level (snappy)
compression; the `common` package is outside the given sources and the
claims depend only on equality with this token, not on its literal value. -/
def blockdeviceClone : String := "blockdeviceClone"

/-- A reader as produced by `newContentReader`: either the original stream
untouched, or the stream wrapped in `snappy.NewReader`. -/
inductive ContentReader
  | plain (bytes : List Nat)
  | snappy (bytes : List Nat)
deriving DecidableEq

/-- Models `newContentReader` (uploadserver.go lines 516-522): wrap in a
snappy reader exactly when the content type equals `blockdeviceClone`. -/
def newContentReader (bytes : List Nat) (contentType : String) : ContentReader :=
  if contentType == blockdeviceClone then ContentReader.snappy bytes
  else ContentReader.plain bytes

/-- Reading a content reader to the end: a plain reader yields the original
bytes, a snappy reader yields whatever the snappy codec (abstracted as
`snappyDecode`) produces from them. -/
def readContent (snappyDecode : List Nat → List Nat) : ContentReader → List Nat
  | ContentReader.plain b => b
  | ContentReader.snappy b => snappyDecode b

/-! Reachable session states. Each constructor is one state-mutating event of
the program: a full synchronous request (`uploadHandler` or
`uploadArchiveHandler`), a full asynchronous request up to spawning the
goroutine, or the background goroutine's resume step — which the program only
runs after its own async request left the session in `processing`. Rejected
requests change nothing, so whole-request granularity loses no states. -/

inductive Reachable : AppState → Prop
  | init : Reachable initState
  | syncRequest (cn proc dv m tls ct body) {s : AppState} :
      Reachable s → Reachable (processUpload cn proc dv m tls ct body s).state
  | asyncRequest (cn setup m tls ct body) {s : AppState} :
      Reachable s → Reachable (uploadHandlerAsync cn setup m tls ct body s).state
  | asyncResume (processor) {s : AppState} :
      Reachable s → s.processing = true → Reachable (asyncResumeStep processor s)

/-- Mutual exclusion of the session phases, as the spec's phase reading of
the three boolean flags requires. -/
def PhasesExclusive (s : AppState) : Prop :=
  (s.uploading = true → s.processing = false ∧ s.done = false) ∧
  (s.processing = true → s.uploading = false ∧ s.done = false) ∧
  (s.done = true → s.uploading = false ∧ s.processing = false)

/-! Helper lemmas about the admission check and phase invariants. -/

theorem validate_cases (cn : String) (m : Method)
    (tls : Option (List String)) (s : AppState) :
    ((validateShouldHandleRequest cn m tls s).admitted = true ∧
      (validateShouldHandleRequest cn m tls s).state = { s with uploading := true } ∧
      s.uploading = false ∧ s.processing = false ∧ s.done = false) ∨
    ((validateShouldHandleRequest cn m tls s).admitted = false ∧
      (validateShouldHandleRequest cn m tls s).state = s) := by
  unfold validateShouldHandleRequest validatePhase
  split
  · exact Or.inr ⟨rfl, rfl⟩
  · split
    · split
      · split
        · exact Or.inr ⟨rfl, rfl⟩
        · split
          · exact Or.inr ⟨rfl, rfl⟩
          · refine Or.inl ⟨rfl, rfl, ?_, ?_, ?_⟩ <;> simp_all
      · exact Or.inr ⟨rfl, rfl⟩
    · split
      · exact Or.inr ⟨rfl, rfl⟩
      · split
        · exact Or.inr ⟨rfl, rfl⟩
        · refine Or.inl ⟨rfl, rfl, ?_, ?_, ?_⟩ <;> simp_all

theorem validate_not_admitted_state (cn : String) (m : Method)
    (tls : Option (List String)) (s : AppState)
    (h : (validateShouldHandleRequest cn m tls s).admitted = false) :
    (validateShouldHandleRequest cn m tls s).state = s := by
  rcases validate_cases cn m tls s with ⟨ha, _⟩ | ⟨_, hs⟩
  · rw [ha] at h; exact absurd h (by simp)
  · exact hs

theorem validate_admitted (cn : String) (m : Method)
    (tls : Option (List String)) (s : AppState)
    (h : (validateShouldHandleRequest cn m tls s).admitted = true) :
    s.uploading = false ∧ s.processing = false ∧ s.done = false ∧
    (validateShouldHandleRequest cn m tls s).state = { s with uploading := true } := by
  rcases validate_cases cn m tls s with ⟨_, hs, hu, hp, hd⟩ | ⟨ha, _⟩
  · exact ⟨hu, hp, hd, hs⟩
  · rw [ha] at h; exact absurd h (by simp)

theorem processUpload_inv (cn : String)
    (proc : Option (List Nat) → String → DataVolumeContentType → Bool × Option ProcError)
    (dv : DataVolumeContentType) (m : Method) (tls : Option (List String))
    (ct : String) (body : Except Unit (List Nat)) (s : AppState)
    (hInv : PhasesExclusive s) :
    PhasesExclusive (processUpload cn proc dv m tls ct body s).state := by
  by_cases hadm : (validateShouldHandleRequest cn m tls s).admitted = false
  · simp only [processUpload, hadm, if_pos]
    rw [validate_not_admitted_state cn m tls s hadm]
    exact hInv
  · rw [Bool.not_eq_false] at hadm
    obtain ⟨hu, hp, hd, hst⟩ := validate_admitted cn m tls s hadm
    simp only [processUpload, hadm, Bool.true_eq_false, if_neg, hst]
    cases body <;>
      rcases h2 : (proc _ ct dv).2 with _ | e <;>
        simp_all [PhasesExclusive]

theorem uploadHandlerAsync_inv (cn : String)
    (setup : Option (List Nat) → String → Except ProcError AsyncProcessor)
    (m : Method) (tls : Option (List String)) (ct : String)
    (body : Except Unit (List Nat)) (s : AppState)
    (hInv : PhasesExclusive s) :
    PhasesExclusive (uploadHandlerAsync cn setup m tls ct body s).state := by
  by_cases hhead : m = Method.head
  · simp only [uploadHandlerAsync, hhead, if_pos]
    exact hInv
  · simp only [uploadHandlerAsync, hhead, if_neg]
    by_cases hadm : (validateShouldHandleRequest cn m tls s).admitted = false
    · simp only [hadm, if_pos]
      rw [validate_not_admitted_state cn m tls s hadm]
      exact hInv
    · rw [Bool.not_eq_false] at hadm
      obtain ⟨hu, hp, hd, hst⟩ := validate_admitted cn m tls s hadm
      simp only [hadm, Bool.true_eq_false, if_neg, hst]
      cases body <;>
        rcases h2 : setup _ ct with e | p <;>
          simp_all [PhasesExclusive]

theorem asyncResumeStep_inv (processor : AsyncProcessor) (s : AppState)
    (hp : s.processing = true) (hInv : PhasesExclusive s) :
    PhasesExclusive (asyncResumeStep processor s) := by
  obtain ⟨hu, hd⟩ := hInv.2.1 hp
  unfold asyncResumeStep
  rcases processor.resumeError with _ | e <;> simp_all [PhasesExclusive]

theorem reachable_phasesExclusive {s : AppState} (h : Reachable s) :
    PhasesExclusive s := by
  induction h with
  | init => exact ⟨by simp [initState], by simp [initState], by simp [initState]⟩
  | syncRequest cn proc dv m tls ct body _ ih =>
      exact processUpload_inv cn proc dv m tls ct body _ ih
  | asyncRequest cn setup m tls ct body _ ih =>
      exact uploadHandlerAsync_inv cn setup m tls ct body _ ih
  | asyncResume processor _ hp ih =>
      exact asyncResumeStep_inv processor _ hp ih

/-! Claim theorems. -/

/-- C1 (counterexample): in the background goroutine, when `ProcessDataResume`
fails, the claim says the done flag stays unset, `preallocationApplied` is not
recorded, and the done signal is not closed. At the concrete processing state
with a failing processor, the error is indeed sent on the error channel — but
`done` ends up true, `preallocationApplied` is recorded, and the done channel
ends up closed, refuting the claim. -/
theorem asyncResume_failure_sets_done_cex :
    (asyncResumeStep
        { resumeError := some (ProcError.other "resume failed"),
          preallocationApplied := true }
        { initState with processing := true }).errChanSent
      = [ProcError.other "resume failed"] ∧
    (asyncResumeStep
        { resumeError := some (ProcError.other "resume failed"),
          preallocationApplied := true }
        { initState with processing := true }).done = true ∧
    (asyncResumeStep
        { resumeError := some (ProcError.other "resume failed"),
          preallocationApplied := true }
        { initState with processing := true }).doneChanClosed = true ∧
    (asyncResumeStep
        { resumeError := some (ProcError.other "resume failed"),
          preallocationApplied := true }
        { initState with processing := true }).preallocationApplied = true := by
  decide

/-- C1 (amended): when `ProcessDataResume` fails, the error is reported via
the error channel — and then, with no early return after the send, the
goroutine still runs the completion code: `processing` is cleared, `done` is
set, `preallocationApplied` is recorded, and the deferred close of the done
channel runs, exactly as on success. -/
theorem asyncResume_failure_reports_and_completes (processor : AsyncProcessor)
    (s : AppState) (e : ProcError) (h : processor.resumeError = some e) :
    (asyncResumeStep processor s).errChanSent = s.errChanSent ++ [e] ∧
    (asyncResumeStep processor s).processing = false ∧
    (asyncResumeStep processor s).done = true ∧
    (asyncResumeStep processor s).preallocationApplied
      = processor.preallocationApplied ∧
    (asyncResumeStep processor s).doneChanClosed = true := by
  unfold asyncResumeStep
  rw [h]
  exact ⟨rfl, rfl, rfl, rfl, rfl⟩

/-- Witness for the amended C1 theorem at a concrete failing processor. -/
theorem asyncResume_failure_reports_and_completes_witness :
    (asyncResumeStep
        { resumeError := some (ProcError.other "boom"), preallocationApplied := false }
        { initState with processing := true }).errChanSent
      = ({ initState with processing := true } : AppState).errChanSent
          ++ [ProcError.other "boom"] ∧
    (asyncResumeStep
        { resumeError := some (ProcError.other "boom"), preallocationApplied := false }
        { initState with processing := true }).processing = false ∧
    (asyncResumeStep
        { resumeError := some (ProcError.other "boom"), preallocationApplied := false }
        { initState with processing := true }).done = true ∧
    (asyncResumeStep
        { resumeError := some (ProcError.other "boom"), preallocationApplied := false }
        { initState with processing := true }).preallocationApplied
      = ({ resumeError := some (ProcError.other "boom"), preallocationApplied := false }
          : AsyncProcessor).preallocationApplied ∧
    (asyncResumeStep
        { resumeError := some (ProcError.other "boom"), preallocationApplied := false }
        { initState with processing := true }).doneChanClosed = true :=
  asyncResume_failure_reports_and_completes
    { resumeError := some (ProcError.other "boom"), preallocationApplied := false }
    { initState with processing := true } (ProcError.other "boom") rfl

/-- C2 (counterexample): the claim says at most one request is ever admitted
per process lifetime and that no request is admitted after a failed
synchronous attempt. Concretely: a first POST from the initial state is
admitted (its processor runs) and fails, and a second POST against the
resulting state is admitted again by the admission check. -/
theorem second_admission_after_sync_failure_cex :
    (processUpload "client"
        (fun _ _ _ => (false, some (ProcError.other "processing failed")))
        DataVolumeContentType.kubeVirt Method.post none "" (Except.ok [1])
        initState).procCalledWith = some (some [1]) ∧
    (validateShouldHandleRequest "client" Method.post none
        (processUpload "client"
          (fun _ _ _ => (false, some (ProcError.other "processing failed")))
          DataVolumeContentType.kubeVirt Method.post none "" (Except.ok [1])
          initState).state).admitted = true := by
  decide

/-- C2 (amended): a failed synchronous upload attempt answers 500 and resets
the session flags to the initial admittable state (`uploading`, `processing`
and `done` all false, as before the first request), so the admission check
admits a subsequent POST request; admission is single only while a session is
in flight or after successful completion, not across the process lifetime. -/
theorem sync_failure_resets_to_admittable (cn ct : String)
    (dv : DataVolumeContentType)
    (proc : Option (List Nat) → String → DataVolumeContentType → Bool × Option ProcError)
    (b : List Nat) (pa : Bool) (e : ProcError)
    (hproc : proc (some b) ct dv = (pa, some e)) :
    (processUpload cn proc dv Method.post none ct (Except.ok b) initState).statuses
      = [statusInternalServerError] ∧
    (processUpload cn proc dv Method.post none ct (Except.ok b) initState).state.uploading
      = false ∧
    (processUpload cn proc dv Method.post none ct (Except.ok b) initState).state.processing
      = false ∧
    (processUpload cn proc dv Method.post none ct (Except.ok b) initState).state.done
      = false ∧
    (validateShouldHandleRequest cn Method.post none
        (processUpload cn proc dv Method.post none ct (Except.ok b) initState).state).admitted
      = true := by
  simp only [processUpload, validateShouldHandleRequest, validatePhase, initState, hproc]
  simp

/-- Witness for the amended C2 theorem at a concrete failing processor. -/
theorem sync_failure_resets_to_admittable_witness :
    (processUpload "client" (fun _ _ _ => (false, some (ProcError.other "fail")))
        DataVolumeContentType.kubeVirt Method.post none "" (Except.ok [1])
        initState).statuses = [statusInternalServerError] ∧
    (processUpload "client" (fun _ _ _ => (false, some (ProcError.other "fail")))
        DataVolumeContentType.kubeVirt Method.post none "" (Except.ok [1])
        initState).state.uploading = false ∧
    (processUpload "client" (fun _ _ _ => (false, some (ProcError.other "fail")))
        DataVolumeContentType.kubeVirt Method.post none "" (Except.ok [1])
        initState).state.processing = false ∧
    (processUpload "client" (fun _ _ _ => (false, some (ProcError.other "fail")))
        DataVolumeContentType.kubeVirt Method.post none "" (Except.ok [1])
        initState).state.done = false ∧
    (validateShouldHandleRequest "client" Method.post none
        (processUpload "client" (fun _ _ _ => (false, some (ProcError.other "fail")))
          DataVolumeContentType.kubeVirt Method.post none "" (Except.ok [1])
          initState).state).admitted = true :=
  sync_failure_resets_to_admittable "client" "" DataVolumeContentType.kubeVirt
    (fun _ _ _ => (false, some (ProcError.other "fail"))) [1] false
    (ProcError.other "fail") rfl

/-- C3 (counterexample): the claim says a declared-size validation failure is
answered with a 400-class response in both handler variants. In the
synchronous variant, a `ValidationSizeError` from the processor is answered
with 500 and no 400 status is ever written. -/
theorem sync_validation_error_gets_500_cex :
    (processUpload "client" (fun _ _ _ => (false, some ProcError.validationSize))
        DataVolumeContentType.kubeVirt Method.post none "" (Except.ok [1])
        initState).statuses = [statusInternalServerError] ∧
    statusBadRequest ∉
      (processUpload "client" (fun _ _ _ => (false, some ProcError.validationSize))
        DataVolumeContentType.kubeVirt Method.post none "" (Except.ok [1])
        initState).statuses := by
  decide

/-- C3 (amended): only the asynchronous handler distinguishes the error kind:
an async setup failure that is a declared-size validation error is answered
400 and any other async setup failure 500, while the synchronous handler
answers 500 for every processor failure, size-validation errors included. -/
theorem processor_error_status_mapping (cn ct : String)
    (dv : DataVolumeContentType)
    (proc : Option (List Nat) → String → DataVolumeContentType → Bool × Option ProcError)
    (setup : Option (List Nat) → String → Except ProcError AsyncProcessor)
    (b : List Nat) (pa : Bool) (e1 e2 : ProcError)
    (hproc : proc (some b) ct dv = (pa, some e1))
    (hsetup : setup (some b) ct = Except.error e2) :
    (processUpload cn proc dv Method.post none ct (Except.ok b) initState).statuses
      = [statusInternalServerError] ∧
    (uploadHandlerAsync cn setup Method.post none ct (Except.ok b) initState).statuses
      = [if isValidationSizeError e2 then statusBadRequest
         else statusInternalServerError] := by
  constructor
  · simp only [processUpload, validateShouldHandleRequest, validatePhase, initState, hproc]
    simp
  · simp only [uploadHandlerAsync, validateShouldHandleRequest, validatePhase, initState,
      hsetup]
    simp

/-- Witness for the amended C3 theorem: a size-validation failure gives 500
from the synchronous handler and 400 from the asynchronous one. -/
theorem processor_error_status_mapping_witness :
    (processUpload "client" (fun _ _ _ => (false, some ProcError.validationSize))
        DataVolumeContentType.kubeVirt Method.post none "" (Except.ok [1])
        initState).statuses = [statusInternalServerError] ∧
    (uploadHandlerAsync "client" (fun _ _ => Except.error ProcError.validationSize)
        Method.post none "" (Except.ok [1]) initState).statuses
      = [if isValidationSizeError ProcError.validationSize then statusBadRequest
         else statusInternalServerError] :=
  processor_error_status_mapping "client" "" DataVolumeContentType.kubeVirt
    (fun _ _ _ => (false, some ProcError.validationSize))
    (fun _ _ => Except.error ProcError.validationSize) [1] false
    ProcError.validationSize ProcError.validationSize rfl rfl

/-- C4 (confirmed): the admission check on a POST request, past the identity
check, behaves exactly as specified: while uploading or processing it rejects
with 503 and changes no state; once done (and not in flight) it rejects with
409 and changes no state; from the idle state it sets `uploading` and admits. -/
theorem admission_check_spec (cn : String) (s : AppState) :
    ((s.uploading = true ∨ s.processing = true) →
      validateShouldHandleRequest cn Method.post none s =
        { admitted := false, status := some statusServiceUnavailable, state := s }) ∧
    (s.uploading = false → s.processing = false → s.done = true →
      validateShouldHandleRequest cn Method.post none s =
        { admitted := false, status := some statusConflict, state := s }) ∧
    (s.uploading = false → s.processing = false → s.done = false →
      validateShouldHandleRequest cn Method.post none s =
        { admitted := true, status := none, state := { s with uploading := true } }) := by
  unfold validateShouldHandleRequest validatePhase
  refine ⟨fun h => ?_, fun hu hp hd => ?_, fun hu hp hd => ?_⟩
  · rcases h with h | h <;> simp [h]
  · simp [hu, hp, hd]
  · simp [hu, hp, hd]

/-- Witness for C4 at the three concrete phases. -/
theorem admission_check_spec_witness :
    (validateShouldHandleRequest "client" Method.post none
        { initState with uploading := true } =
      { admitted := false, status := some statusServiceUnavailable,
        state := { initState with uploading := true } }) ∧
    (validateShouldHandleRequest "client" Method.post none
        { initState with done := true } =
      { admitted := false, status := some statusConflict,
        state := { initState with done := true } }) ∧
    (validateShouldHandleRequest "client" Method.post none initState =
      { admitted := true, status := none,
        state := { initState with uploading := true } }) :=
  ⟨(admission_check_spec "client" { initState with uploading := true }).1 (Or.inl rfl),
   (admission_check_spec "client" { initState with done := true }).2.1 rfl rfl rfl,
   (admission_check_spec "client" initState).2.2 rfl rfl rfl⟩

/-- C5 (confirmed): in every reachable session state with the done flag set,
the uploading and processing flags are both false, and a subsequent POST
request — through the bare admission check or through either handler — gets
the already-done 409 outcome, never the 503 concurrency conflict, with the
session state unchanged. -/
theorem done_is_terminal (cn ct : String) (s : AppState)
    (proc : Option (List Nat) → String → DataVolumeContentType → Bool × Option ProcError)
    (dv : DataVolumeContentType)
    (setup : Option (List Nat) → String → Except ProcError AsyncProcessor)
    (body : Except Unit (List Nat))
    (h : Reachable s) (hd : s.done = true) :
    s.uploading = false ∧ s.processing = false ∧
    validateShouldHandleRequest cn Method.post none s =
      { admitted := false, status := some statusConflict, state := s } ∧
    (processUpload cn proc dv Method.post none ct body s).statuses
      = [statusConflict] ∧
    (processUpload cn proc dv Method.post none ct body s).state = s ∧
    (uploadHandlerAsync cn setup Method.post none ct body s).statuses
      = [statusConflict] ∧
    (uploadHandlerAsync cn setup Method.post none ct body s).state = s := by
  obtain ⟨hu, hp⟩ := (reachable_phasesExclusive h).2.2 hd
  have hval : validateShouldHandleRequest cn Method.post none s =
      { admitted := false, status := some statusConflict, state := s } := by
    unfold validateShouldHandleRequest validatePhase
    simp [hu, hp, hd]
  refine ⟨hu, hp, hval, ?_, ?_, ?_, ?_⟩ <;>
    simp [processUpload, uploadHandlerAsync, hval]

/-- Witness for C5: the state after a successful synchronous upload is a
reachable done state, and a POST against it gets 409 from the handlers. -/
theorem done_is_terminal_witness :
    (processUpload "client" (fun _ _ _ => (true, none)) DataVolumeContentType.kubeVirt
        Method.post none "" (Except.ok []) initState).state.uploading = false ∧
    (processUpload "client" (fun _ _ _ => (true, none)) DataVolumeContentType.kubeVirt
        Method.post none "" (Except.ok []) initState).state.processing = false ∧
    validateShouldHandleRequest "client" Method.post none
        (processUpload "client" (fun _ _ _ => (true, none)) DataVolumeContentType.kubeVirt
          Method.post none "" (Except.ok []) initState).state =
      { admitted := false, status := some statusConflict,
        state := (processUpload "client" (fun _ _ _ => (true, none))
          DataVolumeContentType.kubeVirt Method.post none "" (Except.ok [])
          initState).state } ∧
    (processUpload "client" (fun _ _ _ => (false, some (ProcError.other "late")))
        DataVolumeContentType.kubeVirt Method.post none ""
        (Except.ok [7])
        (processUpload "client" (fun _ _ _ => (true, none)) DataVolumeContentType.kubeVirt
          Method.post none "" (Except.ok []) initState).state).statuses
      = [statusConflict] ∧
    (processUpload "client" (fun _ _ _ => (false, some (ProcError.other "late")))
        DataVolumeContentType.kubeVirt Method.post none ""
        (Except.ok [7])
        (processUpload "client" (fun _ _ _ => (true, none)) DataVolumeContentType.kubeVirt
          Method.post none "" (Except.ok []) initState).state).state
      = (processUpload "client" (fun _ _ _ => (true, none)) DataVolumeContentType.kubeVirt
          Method.post none "" (Except.ok []) initState).state ∧
    (uploadHandlerAsync "client" (fun _ _ => Except.error (ProcError.other "late"))
        Method.post none "" (Except.ok [7])
        (processUpload "client" (fun _ _ _ => (true, none)) DataVolumeContentType.kubeVirt
          Method.post none "" (Except.ok []) initState).state).statuses
      = [statusConflict] ∧
    (uploadHandlerAsync "client" (fun _ _ => Except.error (ProcError.other "late"))
        Method.post none "" (Except.ok [7])
        (processUpload "client" (fun _ _ _ => (true, none)) DataVolumeContentType.kubeVirt
          Method.post none "" (Except.ok []) initState).state).state
      = (processUpload "client" (fun _ _ _ => (true, none)) DataVolumeContentType.kubeVirt
          Method.post none "" (Except.ok []) initState).state :=
  done_is_terminal "client" ""
    (processUpload "client" (fun _ _ _ => (true, none)) DataVolumeContentType.kubeVirt
      Method.post none "" (Except.ok []) initState).state
    (fun _ _ _ => (false, some (ProcError.other "late")))
    DataVolumeContentType.kubeVirt
    (fun _ _ => Except.error (ProcError.other "late"))
    (Except.ok [7])
    (Reachable.syncRequest "client" (fun _ _ _ => (true, none))
      DataVolumeContentType.kubeVirt Method.post none "" (Except.ok [])
      Reachable.init)
    (by decide)

/-- C6 (confirmed): the block-device extractor skips every leading entry that
either lacks the disk-image marker in its name or is not a regular/GNU-sparse
file, and at the first regular-or-sparse entry whose name contains the marker
it writes exactly that entry's declared size in bytes and stops, ignoring all
later entries — whatever they are, matching names included. -/
theorem untarToBlockdev_first_match (pre post : List TarEntry) (e : TarEntry)
    (hpre : ∀ x ∈ pre,
      goStringsContains x.name diskImageName = false ∨ isCopyType x.typeflag = false)
    (hname : goStringsContains e.name diskImageName = true)
    (hty : isCopyType e.typeflag = true)
    (hsz : e.size ≤ e.content.length) :
    untarToBlockdev (pre ++ e :: post) = some (e.content.take e.size) ∧
    (e.content.take e.size).length = e.size := by
  constructor
  · revert hpre
    induction pre with
    | nil =>
      intro _
      simp [untarToBlockdev, hname, hty, hsz]
    | cons x xs ih =>
      intro hpre
      have hx := hpre x (List.mem_cons_self x xs)
      have hxs : ∀ y ∈ xs,
          goStringsContains y.name diskImageName = false ∨ isCopyType y.typeflag = false :=
        fun y hy => hpre y (List.mem_cons_of_mem x hy)
      rw [List.cons_append]
      rcases hx with hskip | hskip
      · simpa [untarToBlockdev, hskip] using ih hxs
      · by_cases hc : goStringsContains x.name diskImageName = true
        · simpa [untarToBlockdev, hc, hskip] using ih hxs
        · simp only [Bool.not_eq_true] at hc
          simpa [untarToBlockdev, hc] using ih hxs
  · simp [List.length_take, Nat.min_eq_left hsz]

/-- Witness for C6 at the spec's example stream: metadata.json, then disk.img
(4 bytes), then disk.img.bak (3 bytes); exactly disk.img's 4 content bytes
land on the device. -/
theorem untarToBlockdev_first_match_witness :
    untarToBlockdev
        [{ name := "metadata.json", typeflag := '0', size := 2, content := [9, 9] },
         { name := "disk.img", typeflag := '0', size := 4, content := [1, 2, 3, 4] },
         { name := "disk.img.bak", typeflag := '0', size := 3, content := [5, 6, 7] }]
      = some (([1, 2, 3, 4] : List Nat).take 4) ∧
    (([1, 2, 3, 4] : List Nat).take 4).length = 4 :=
  untarToBlockdev_first_match
    [{ name := "metadata.json", typeflag := '0', size := 2, content := [9, 9] }]
    [{ name := "disk.img.bak", typeflag := '0', size := 3, content := [5, 6, 7] }]
    { name := "disk.img", typeflag := '0', size := 4, content := [1, 2, 3, 4] }
    (by decide) (by decide) (by decide) (by decide)

/-- C7 (confirmed): the content decoder wraps the stream in the snappy reader
exactly when the content type equals the block-device-clone token; any other
value — the empty string of an absent header included — leaves the stream
untouched, so reading it back is the identity on its bytes, whatever the
snappy codec does. -/
theorem newContentReader_spec (ct : String) (b : List Nat)
    (snappyDecode : List Nat → List Nat) (h : ct ≠ blockdeviceClone) :
    newContentReader b ct = ContentReader.plain b ∧
    readContent snappyDecode (newContentReader b ct) = b ∧
    newContentReader b blockdeviceClone = ContentReader.snappy b := by
  have hb : (ct == blockdeviceClone) = false := by
    simpa using h
  refine ⟨?_, ?_, ?_⟩ <;> simp [newContentReader, readContent, hb]

/-- Witness for C7 at the absent-header content type. -/
theorem newContentReader_spec_witness :
    newContentReader [1, 2, 3] "" = ContentReader.plain [1, 2, 3] ∧
    readContent id (newContentReader [1, 2, 3] "") = [1, 2, 3] ∧
    newContentReader [1, 2, 3] blockdeviceClone = ContentReader.snappy [1, 2, 3] :=
  newContentReader_spec "" [1, 2, 3] id (by decide)

/-- C8 (confirmed): a HEAD request to the async handler answers 200
immediately, leaves the whole session state — uploading, processing, done,
preallocationApplied and both channels — unchanged, and never invokes the
processor, whatever state the session is in. -/
theorem head_request_leaves_state_unchanged (cn ct : String)
    (setup : Option (List Nat) → String → Except ProcError AsyncProcessor)
    (peerCerts : Option (List String)) (body : Except Unit (List Nat))
    (s : AppState) :
    uploadHandlerAsync cn setup Method.head peerCerts ct body s =
      { statuses := [statusOK], state := s, procCalledWith := none } := by
  simp [uploadHandlerAsync]

/-- C9 (confirmed): on a TLS connection whose presented certificates contain
no subject common name equal to the configured client name, a POST is
rejected 401 with the session state untouched in every phase — so before the
phase check — while a non-POST method is answered 404 even with the same
mismatched certificates, placing the identity check after the method check. -/
theorem peer_mismatch_rejected (cn : String) (cns : List String) (m : Method)
    (s : AppState) (hmiss : cns.any (fun c => c == cn) = false)
    (hm : m ≠ Method.post) :
    validateShouldHandleRequest cn Method.post (some cns) s =
      { admitted := false, status := some statusUnauthorized, state := s } ∧
    validateShouldHandleRequest cn m (some cns) s =
      { admitted := false, status := some statusNotFound, state := s } := by
  constructor
  · unfold validateShouldHandleRequest
    simp [hmiss]
  · unfold validateShouldHandleRequest
    simp [hm]

/-- Witness for C9: expecting "client-A" while only "client-B" is presented,
against a session that is already done and uploading — rejected 401 with no
state change, and 404 on a HEAD to a sync path. -/
theorem peer_mismatch_rejected_witness :
    validateShouldHandleRequest "client-A" Method.post (some ["client-B"])
        { initState with uploading := true, done := true } =
      { admitted := false, status := some statusUnauthorized,
        state := { initState with uploading := true, done := true } } ∧
    validateShouldHandleRequest "client-A" Method.head (some ["client-B"])
        { initState with uploading := true, done := true } =
      { admitted := false, status := some statusNotFound,
        state := { initState with uploading := true, done := true } } :=
  peer_mismatch_rejected "client-A" ["client-B"] Method.head
    { initState with uploading := true, done := true } (by decide) (by decide)

/-- C10 (confirmed): in both handler variants, when body extraction fails
after admission, the handler writes 400 without returning, still invokes the
upload processor with a nil stream, and on the resulting (non-size) processor
error writes a second, 500 status on the same response. -/
theorem extraction_failure_double_status (cn ct : String)
    (dv : DataVolumeContentType)
    (proc : Option (List Nat) → String → DataVolumeContentType → Bool × Option ProcError)
    (setup : Option (List Nat) → String → Except ProcError AsyncProcessor)
    (body : Except Unit (List Nat)) (pa : Bool) (e1 e2 : ProcError)
    (hbody : body = Except.error ())
    (hproc : proc none ct dv = (pa, some e1))
    (hsetup : setup none ct = Except.error e2)
    (he2 : isValidationSizeError e2 = false) :
    (processUpload cn proc dv Method.post none ct body initState).statuses
      = [statusBadRequest, statusInternalServerError] ∧
    (processUpload cn proc dv Method.post none ct body initState).procCalledWith
      = some none ∧
    (uploadHandlerAsync cn setup Method.post none ct body initState).statuses
      = [statusBadRequest, statusInternalServerError] ∧
    (uploadHandlerAsync cn setup Method.post none ct body initState).procCalledWith
      = some none := by
  subst hbody
  refine ⟨?_, ?_, ?_, ?_⟩ <;>
    · simp only [processUpload, uploadHandlerAsync, validateShouldHandleRequest,
        validatePhase, initState, hproc, hsetup, he2]
      simp

/-- Witness for C10: a multipart body with no "file" part makes extraction
fail, and both handlers write 400 then 500, each having run its processor on
a nil stream. -/
theorem extraction_failure_double_status_witness :
    (processUpload "client" (fun _ _ _ => (false, some (ProcError.other "nil stream")))
        DataVolumeContentType.kubeVirt Method.post none ""
        (formReadCloser [("other", [1, 2])]) initState).statuses
      = [statusBadRequest, statusInternalServerError] ∧
    (processUpload "client" (fun _ _ _ => (false, some (ProcError.other "nil stream")))
        DataVolumeContentType.kubeVirt Method.post none ""
        (formReadCloser [("other", [1, 2])]) initState).procCalledWith
      = some none ∧
    (uploadHandlerAsync "client" (fun _ _ => Except.error (ProcError.other "nil stream"))
        Method.post none "" (formReadCloser [("other", [1, 2])]) initState).statuses
      = [statusBadRequest, statusInternalServerError] ∧
    (uploadHandlerAsync "client" (fun _ _ => Except.error (ProcError.other "nil stream"))
        Method.post none "" (formReadCloser [("other", [1, 2])]) initState).procCalledWith
      = some none :=
  extraction_failure_double_status "client" "" DataVolumeContentType.kubeVirt
    (fun _ _ _ => (false, some (ProcError.other "nil stream")))
    (fun _ _ => Except.error (ProcError.other "nil stream"))
    (formReadCloser [("other", [1, 2])]) false
    (ProcError.other "nil stream") (ProcError.other "nil stream")
    rfl rfl rfl rfl

end UploadServer
